import Mathlib

/-!
Shallow embedding of the scrawler repository (src/scrawler.py,
src/utils/keypath.py, src/utils/notation.py, src/utils/helpers.py) in Lean 4.

Python values are modelled by the inductive `Value`; Python dict keys that
occur in the engine (strings and integers) by `Key`; raised exceptions by
`Except PyErr`.  Machine floats are abstracted by rationals; no claim below
exercises float rounding.  Python dicts preserve insertion order and are
modelled as association lists.
-/

/-- Python exception kinds raised by the embedded code. -/
inductive PyErr where
  | keyError
  | indexError
  | typeError
  | valueError
  | attributeError
  | unboundLocalError
deriving DecidableEq, Repr

/-- Dict keys used by the engine: Python `str` and `int` keys. -/
inductive Key where
  | ks (s : String)
  | ki (n : Int)
deriving DecidableEq, Repr

/-- Python values flowing through the engine.  Floats are abstracted by
rationals (`vfloat`); dicts are insertion-ordered association lists. -/
inductive Value where
  | vnone
  | vbool (b : Bool)
  | vint (n : Int)
  | vfloat (q : Rat)
  | vstr (s : String)
  | vlist (xs : List Value)
  | vdict (entries : List (Key × Value))

open Value Key

/-- Lookup in an insertion-ordered dict (first binding wins, as in Python
where keys are unique). -/
def dictLookup (es : List (Key × Value)) (k : Key) : Option Value :=
  match es with
  | [] => none
  | (k0, v0) :: rest => if k0 = k then some v0 else dictLookup rest k

/-- Python `d[k] = v`: overwrite an existing binding in place, else append
the new binding at the end (insertion order). -/
def dictSet (es : List (Key × Value)) (k : Key) (v : Value) : List (Key × Value) :=
  match es with
  | [] => [(k, v)]
  | (k0, v0) :: rest => if k0 = k then (k0, v) :: rest else (k0, v0) :: dictSet rest k v

/-- Python `d |= other`: right-biased union keeping the left dict order and
appending genuinely new keys.  In src/utils/keypath.py this operation is
dead code (the guard compares against the builtin `dir`), but it is embedded
for completeness. -/
def dictUnion (es other : List (Key × Value)) : List (Key × Value) :=
  other.foldl (fun acc kv => dictSet acc kv.1 kv.2) es

/-- String as the list of its one-character strings, as produced by Python
iteration over a `str` (used by `list += str` extension). -/
def strChars (s : String) : List Value :=
  s.data.map (fun c => vstr (String.singleton c))

/-- Python `len` for the container values the engine indexes. -/
def pyLen : Value → Nat
  | vstr s => s.length
  | vlist xs => xs.length
  | vdict es => es.length
  | _ => 0

/-- Python list indexing with negative-index support: `xs[i]` is `xs[i]` for
`0 <= i < len`, `xs[len+i]` for `-len <= i < 0`, and an IndexError
otherwise. -/
def listIndex (xs : List Value) (i : Int) : Except PyErr Value :=
  if 0 ≤ i ∧ i < (xs.length : Int) then
    .ok (xs.getD i.toNat vnone)
  else if -(xs.length : Int) ≤ i ∧ i < 0 then
    .ok (xs.getD (i + xs.length).toNat vnone)
  else
    .error .indexError

/-- Python string indexing (yields a one-character string), with negative
indices. -/
def strIndex (s : String) (i : Int) : Except PyErr Value :=
  if 0 ≤ i ∧ i < (s.length : Int) then
    .ok (vstr (String.singleton (s.data.getD i.toNat ' ')))
  else if -((s.length : Int)) ≤ i ∧ i < 0 then
    .ok (vstr (String.singleton (s.data.getD (i + s.length).toNat ' ')))
  else
    .error .indexError

/-- Python subscription `obj[key]` for the value shapes the engine
traverses: dicts by key, lists and strings by integer index; every other
combination raises TypeError as in CPython. -/
def pyIndex (obj : Value) (key : Key) : Except PyErr Value :=
  match obj, key with
  | vdict es, k =>
    match dictLookup es k with
    | some v => .ok v
    | none => .error .keyError
  | vlist xs, ki i => listIndex xs i
  | vlist _, ks _ => .error .typeError
  | vstr s, ki i => strIndex s i
  | vstr _, ks _ => .error .typeError
  | _, _ => .error .typeError

/-- Python list item assignment `xs[i] = v` with negative-index support. -/
def listSet (xs : List Value) (i : Int) (v : Value) : Except PyErr (List Value) :=
  if 0 ≤ i ∧ i < (xs.length : Int) then
    .ok (xs.set i.toNat v)
  else if -((xs.length : Int)) ≤ i ∧ i < 0 then
    .ok (xs.set (i + xs.length).toNat v)
  else
    .error .indexError

/-- Python item assignment `obj[key] = v` on the containers the engine
mutates.  Strings are immutable and every non-container raises TypeError. -/
def pySet (obj : Value) (key : Key) (v : Value) : Except PyErr Value :=
  match obj, key with
  | vdict es, k => .ok (vdict (dictSet es k v))
  | vlist xs, ki i => (listSet xs i v).map vlist
  | vlist _, ks _ => .error .typeError
  | _, _ => .error .typeError

/-- Embedding of `has_key` from src/utils/keypath.py: for lists and strings
the key must be one of the integer indices produced by `dict(enumerate(obj))`
(so nonnegative and in range, and never a string); for dicts the key must be
present.  The `hasattr` fallback for other objects is reached by the engine
only on paths that subsequently raise TypeError, and is modelled as false.
-/
def has_key (obj : Value) (key : Key) : Bool :=
  match obj, key with
  | vlist xs, ki i => 0 ≤ i ∧ i < (xs.length : Int)
  | vlist _, ks _ => false
  | vstr s, ki i => 0 ≤ i ∧ i < (s.length : Int)
  | vstr _, ks _ => false
  | vdict es, k => (dictLookup es k).isSome
  | _, _ => false

/-! ## Keypath.split (src/utils/keypath.py lines 5-10)

The source computes three `re.sub` results but applies each substitution to
the original `path` argument, so only the last one (collapsing runs of two
or more dots) reaches the returned value; the trailing-bracket strip and the
bracket-to-delimiter rewrite are dead stores.  All three substitutions are
embedded below, and `split` is wired exactly as the source dataflow is. -/

/-- Regex `\]+$` with empty replacement: strip trailing closing brackets.
This is the first, dead-store substitution of `split`. -/
def subTrailingBrackets (path : String) : String :=
  String.mk ((path.data.reverse.dropWhile (fun c => c = ']')).reverse)

/-- Characters matched by the class `[\[\]]` in the second substitution. -/
def isBracketChar (c : Char) : Bool := c = '[' || c = ']'

/-- Flush a pending run of bracket characters: any nonempty run is replaced
by the delimiter. -/
def flushBrackets (delim : List Char) (n : Nat) : List Char :=
  if n = 0 then [] else delim

/-- Worker for regex `[\[\]]+` replacement by the delimiter. -/
def subBracketsGo (delim : List Char) : List Char → Nat → List Char
  | [], n => flushBrackets delim n
  | c :: cs, n =>
    if isBracketChar c then subBracketsGo delim cs (n + 1)
    else flushBrackets delim n ++ c :: subBracketsGo delim cs 0

/-- Regex `[\[\]]+` with the delimiter as replacement: every maximal run of
square brackets becomes one delimiter.  This is the second, dead-store
substitution of `split`. -/
def subBrackets (delim path : String) : String :=
  String.mk (subBracketsGo delim.data path.data 0)

/-- Flush a pending run of dots: runs of length at least two collapse to the
delimiter, a single dot stays itself (regex `\.` quantified `2,`). -/
def flushDots (delim : List Char) (n : Nat) : List Char :=
  if n = 0 then [] else if n = 1 then ['.'] else delim

/-- Worker for the dot-run collapsing substitution. -/
def subDotRunsGo (delim : List Char) : List Char → Nat → List Char
  | [], n => flushDots delim n
  | c :: cs, n =>
    if c = '.' then subDotRunsGo delim cs (n + 1)
    else flushDots delim n ++ c :: subDotRunsGo delim cs 0

/-- Regex matching two or more dots, replaced by the delimiter.  This is the
third substitution of `split` and the only one whose result the source
actually uses. -/
def subDotRuns (delim path : String) : String :=
  String.mk (subDotRunsGo delim.data path.data 0)

/-- Python `str.split(sep)` with a nonempty separator (the engine always
passes a nonempty delimiter).  Implemented on character lists with fuel;
`splitOnGo` emits the accumulated segment whenever the separator occurs. -/
def splitOnGo (sep : List Char) : Nat → List Char → List Char → List String
  | 0, acc, _ => [String.mk acc.reverse]
  | _ + 1, acc, [] => [String.mk acc.reverse]
  | fuel + 1, acc, c :: cs =>
    if sep ≠ [] ∧ (c :: cs).take sep.length = sep then
      String.mk acc.reverse :: splitOnGo sep fuel [] ((c :: cs).drop sep.length)
    else
      splitOnGo sep fuel (c :: acc) cs

/-- Python `str.split(sep)` for a nonempty `sep`. -/
def pySplit (s sep : String) : List String :=
  splitOnGo sep.data (s.length + 1) [] s.data

/-- Embedding of `split` from src/utils/keypath.py.  Because every `re.sub`
in the source is applied to the original `path` (not to the previously
sanitized string), only the dot-run collapse contributes to the result. -/
def split (path delimiter : String) : List String :=
  pySplit (subDotRuns delimiter path) delimiter

/-- Composition of the three substitutions in their source order, each
feeding the next; this is what the dead-store chain in `split` would compute
had `sanitized_path` been threaded through. -/
def splitChained (path delimiter : String) : List String :=
  pySplit (subDotRuns delimiter (subBrackets delimiter (subTrailingBrackets path))) delimiter

/-! ## Python equality and comparison

Python `==` as used by `find_item_key`: numeric values (bool, int, float)
compare by value across types, strings and containers structurally.  Python
dict equality is order-insensitive; the engine only ever compares the scalar
values stored in metadata, so the structural container comparison below is
adequate for every verified path. -/

mutual

def pyEq : Value → Value → Bool
  | .vnone, .vnone => true
  | .vbool a, .vbool b => a = b
  | .vbool a, .vint n => (if a then (1 : Int) else 0) = n
  | .vint n, .vbool a => n = (if a then (1 : Int) else 0)
  | .vbool a, .vfloat q => ((if a then (1 : Int) else 0) : Rat) = q
  | .vfloat q, .vbool a => q = ((if a then (1 : Int) else 0) : Rat)
  | .vint a, .vint b => a = b
  | .vint a, .vfloat q => (a : Rat) = q
  | .vfloat q, .vint a => q = (a : Rat)
  | .vfloat a, .vfloat b => a = b
  | .vstr a, .vstr b => a = b
  | .vlist xs, .vlist ys => pyEqList xs ys
  | .vdict es, .vdict fs => pyEqEntries es fs
  | _, _ => false

def pyEqList : List Value → List Value → Bool
  | [], [] => true
  | x :: xs, y :: ys => pyEq x y && pyEqList xs ys
  | _, _ => false

def pyEqEntries : List (Key × Value) → List (Key × Value) → Bool
  | [], [] => true
  | (k1, v1) :: xs, (k2, v2) :: ys => k1 = k2 && pyEq v1 v2 && pyEqEntries xs ys
  | _, _ => false

end

/-- Numeric view of a value for Python cross-type numeric comparison. -/
def pyToRat : Value → Option Rat
  | .vbool b => some (if b then 1 else 0)
  | .vint n => some (n : Rat)
  | .vfloat q => some q
  | _ => none

/-- Python ordering comparison for the operand shapes `find_item_key`
compares: numbers with numbers, strings with strings (lexicographic by code
point); any other pairing raises TypeError as in Python 3. -/
def pyCompare (a b : Value) : Except PyErr Ordering :=
  match pyToRat a, pyToRat b with
  | some x, some y => .ok (compare x y)
  | _, _ =>
    match a, b with
    | .vstr s, .vstr t => .ok (compare s t)
    | _, _ => .error .typeError

/-! ## Keypath.get (src/utils/keypath.py lines 13-32) -/

/-- Guard `type(value) in [dict, list, str]` from `get`. -/
def isDictListStr : Value → Bool
  | .vdict _ => true
  | .vlist _ => true
  | .vstr _ => true
  | _ => false

/-- Walking loop of `get`: a segment is usable when the current value is a
dict, list or string and `has_key` holds; the first miss returns the
default. -/
def getGo : List Key → Value → Value → Value
  | [], value, _ => value
  | key :: rest, value, default =>
    if isDictListStr value && has_key value key then
      match pyIndex value key with
      | .ok v => getGo rest v default
      | .error _ => default
    else default

/-- Embedding of `get` from src/utils/keypath.py, over an already split
path.  An empty path returns the default. -/
def get (path : List Key) (obj : Value) (default : Value) : Value :=
  if path.isEmpty then default else getGo path obj default

/-! ## Keypath.assign (src/utils/keypath.py lines 35-60)

Two slips of the source are embedded by name so that the verified code
matches the source text: `typeCheckSlip` renders the guard
`type(_obj[key] == type(value))`, which is the type of a boolean and hence
always truthy, and `typeIsDirSlip` renders `type(value) == dir`, which
compares a class against the builtin function `dir` and is always false. -/

/-- Guard `type(value) in [str, int, list]` of the merge branch. -/
def isStrIntList : Value → Bool
  | .vstr _ => true
  | .vint _ => true
  | .vlist _ => true
  | _ => false

/-- Source guard `type(_obj[key] == type(value))` at keypath.py line 51: the
inner expression is a bool, `type` of it is the class `bool`, and a class is
always truthy, so the intended same-type test degenerates to the constant
true. -/
def typeCheckSlip (old incoming : Value) : Bool := true

/-- Source guard `type(value) == dir` at keypath.py line 54: `dir` is the
Python builtin function, not the class `dict`, so the comparison is always
false and the mapping-union branch is dead. -/
def typeIsDirSlip (incoming : Value) : Bool := false

/-- Python augmented assignment `_obj[key] += value` restricted to the
incoming shapes the source branches on (str, int, list).  Note that
`list += str` extends the list with the one-character strings of the
string, as Python iterates the right operand. -/
def pyAddInPlace (old incoming : Value) : Except PyErr Value :=
  match old, incoming with
  | .vstr a, .vstr b => .ok (.vstr (a ++ b))
  | .vint a, .vint b => .ok (.vint (a + b))
  | .vbool a, .vint b => .ok (.vint ((if a then 1 else 0) + b))
  | .vfloat a, .vint b => .ok (.vfloat (a + (b : Rat)))
  | .vlist xs, .vlist ys => .ok (.vlist (xs ++ ys))
  | .vlist xs, .vstr s => .ok (.vlist (xs ++ strChars s))
  | _, _ => .error .typeError

/-- Final-segment step of `assign` (keypath.py lines 50-56), faithful to the
source guards including the two slips. -/
def mergeStep (obj : Value) (key : Key) (value : Value) (merge : Bool) : Except PyErr Value :=
  if merge && has_key obj key then
    match pyIndex obj key with
    | .error e => .error e
    | .ok old =>
      if typeCheckSlip old value then
        if isStrIntList value then
          match pyAddInPlace old value with
          | .error e => .error e
          | .ok nv => pySet obj key nv
        else if typeIsDirSlip value then
          match old, value with
          | .vdict es, .vdict fs => pySet obj key (.vdict (dictUnion es fs))
          | _, _ => .error .typeError
        else
          .ok obj
      else
        pySet obj key value
  else
    pySet obj key value

/-- Walking part of `assign`: `_obj = _obj[key]` on every non-final segment
(no intermediate containers are created; a missing key raises), then the
final-segment step.  Value semantics rebuild the updated child into the
parent with `pySet`, which cannot fail where the walk succeeded. -/
def assignGo (value : Value) (merge : Bool) : Value → List Key → Except PyErr Value
  | obj, [] => .ok obj
  | obj, [key] => mergeStep obj key value merge
  | obj, key :: rest => do
    let child ← pyIndex obj key
    let nchild ← assignGo value merge child rest
    pySet obj key nchild

/-- Embedding of `assign` from src/utils/keypath.py over an already split
path.  An empty path returns the tree unchanged. -/
def assign (value obj : Value) (path : List Key) (merge : Bool) : Except PyErr Value :=
  if path.isEmpty then .ok obj else assignGo value merge obj path

/-! ## Predicate segments (src/utils/notation.py find_item_key, lines 46-75)

The source pattern is the regex
`\$key\{\s*(\$)?(\w+)\s*(=|!=|>=|<=|>|<)\s*(\$)?(\w+)\s*\}`
searched with `re.search`; the spec text instead writes predicate segments
with a leading star.  A segment that does not match the pattern is returned
unchanged. -/

/-- Comparison operator of a predicate segment. -/
inductive CmpOp where
  | eq
  | ne
  | ge
  | le
  | gt
  | lt
deriving DecidableEq, Repr

/-- Parsed groups of the `$key` pattern. -/
structure KeyMatchData where
  is_left_var : Bool
  left_operand : String
  operator : CmpOp
  is_right_var : Bool
  right_operand : String

/-- Python regex `\w` restricted to ASCII identifiers, which is what the
engine feeds it. -/
def isWordChar (c : Char) : Bool := c.isAlphanum || c = '_'

/-- Python regex `\s`. -/
def isSpaceChar (c : Char) : Bool :=
  c = ' ' || c = '\t' || c = '\n' || c = '\r' || c = '\x0b' || c = '\x0c'

/-- Skip `\s*`. -/
def dropSpaces (cs : List Char) : List Char := cs.dropWhile isSpaceChar

/-- Greedy `\w+` (possibly empty result; callers reject the empty match). -/
def takeWord (cs : List Char) : List Char × List Char :=
  (cs.takeWhile isWordChar, cs.dropWhile isWordChar)

/-- Operator alternation `=|!=|>=|<=|>|<` tried in source order at the
current position. -/
def parseOp : List Char → Option (CmpOp × List Char)
  | '=' :: rest => some (.eq, rest)
  | '!' :: '=' :: rest => some (.ne, rest)
  | '>' :: '=' :: rest => some (.ge, rest)
  | '<' :: '=' :: rest => some (.le, rest)
  | '>' :: rest => some (.gt, rest)
  | '<' :: rest => some (.lt, rest)
  | _ => none

/-- Try to match the whole `$key` pattern starting at the head of the
character list (trailing characters are allowed, as with `re.search`). -/
def matchKeyAt (cs : List Char) : Option KeyMatchData :=
  match cs with
  | '$' :: 'k' :: 'e' :: 'y' :: '\x7b' :: r0 =>
    let r1 := dropSpaces r0
    let p1 : Bool × List Char :=
      match r1 with
      | '$' :: r => (true, r)
      | _ => (false, r1)
    let (lw, r2) := takeWord p1.2
    if lw.isEmpty then none else
    match parseOp (dropSpaces r2) with
    | none => none
    | some (op, r3) =>
      let r4 := dropSpaces r3
      let p2 : Bool × List Char :=
        match r4 with
        | '$' :: r => (true, r)
        | _ => (false, r4)
      let (rw, r5) := takeWord p2.2
      if rw.isEmpty then none else
      match dropSpaces r5 with
      | '\x7d' :: _ => some ⟨p1.1, String.mk lw, op, p2.1, String.mk rw⟩
      | _ => none
  | _ => none

/-- Scan of `re.search`: first position where the pattern matches. -/
def searchKeyPattern : Nat → List Char → Option KeyMatchData
  | 0, _ => none
  | _ + 1, [] => none
  | fuel + 1, c :: cs =>
    match matchKeyAt (c :: cs) with
    | some m => some m
    | none => searchKeyPattern fuel cs

/-- Search the `$key` pattern anywhere in a string. -/
def findKeyPattern (s : String) : Option KeyMatchData :=
  searchKeyPattern (s.length + 1) s.data

/-- Association lookup in the flat `vars` scope (a Python dict with string
keys). -/
def varsLookup (vars : List (String × Value)) (name : String) : Option Value :=
  match vars with
  | [] => none
  | (k, v) :: rest => if k = name then some v else varsLookup rest name

/-- A variable-resolved operand used as a dict subscript: Python hashes
strings, ints and bools (`True` indexes like `1`).  The engine only ever
produces these scalar operands; unhashable shapes raise TypeError. -/
def valueAsDictKey (v : Value) : Except PyErr Key :=
  match v with
  | .vstr s => .ok (.ks s)
  | .vint n => .ok (.ki n)
  | .vbool b => .ok (.ki (if b then 1 else 0))
  | _ => .error .typeError

/-- One comparison `v[left_operand] OP right_operand` of the scan loop. -/
def opHolds (op : CmpOp) (l r : Value) : Except PyErr Bool :=
  match op with
  | .eq => .ok (pyEq l r)
  | .ne => .ok (!pyEq l r)
  | .ge => (pyCompare l r).map (fun o => o ≠ Ordering.lt)
  | .le => (pyCompare l r).map (fun o => o ≠ Ordering.gt)
  | .gt => (pyCompare l r).map (fun o => o = Ordering.gt)
  | .lt => (pyCompare l r).map (fun o => o = Ordering.lt)

/-- One iteration test of the scan loop: subscript the item by the left
operand and compare with the right operand. -/
def predTest (leftKey : Key) (op : CmpOp) (right : Value) (v : Value) :
    Except PyErr Bool :=
  match pyIndex v leftKey with
  | .error e => .error e
  | .ok lv => opHolds op lv right

/-- Scan loop of `find_item_key` (notation.py lines 61-75): first item whose
subkey satisfies the operator wins; the for-else raises ValueError when
nothing matches, in strict and non-strict resolution alike. -/
def findLoop (leftKey : Key) (op : CmpOp) (right : Value) :
    List (Key × Value) → Except PyErr Key
  | [] => .error .valueError
  | (k, v) :: rest =>
    match predTest leftKey op right v with
    | .error e => .error e
    | .ok b => if b then .ok k else findLoop leftKey op right rest

/-- Python `enumerate` over a list, as key-value pairs. -/
def enumerateList (xs : List Value) : List (Key × Value) :=
  (xs.enum).map (fun p => (Key.ki (p.1 : Int), p.2))

/-- Embedding of `find_item_key` from src/utils/notation.py.  `re.search`
on a non-string segment raises TypeError; a string segment without the
pattern is returned unchanged; otherwise a `$`-marked operand reads the
flat vars scope (raising KeyError when absent), a plain operand stays a
string, and the collection is scanned in order. -/
def find_item_key (key : Key) (value : Value) (vars : List (String × Value)) :
    Except PyErr Key :=
  match key with
  | .ki _ => .error .typeError
  | .ks s =>
    match findKeyPattern s with
    | none => .ok key
    | some m => do
      let left ← (if m.is_left_var then
          match varsLookup vars m.left_operand with
          | some v => .ok v
          | none => .error .keyError
        else .ok (.vstr m.left_operand) : Except PyErr Value)
      let right ← (if m.is_right_var then
          match varsLookup vars m.right_operand with
          | some v => .ok v
          | none => .error .keyError
        else .ok (.vstr m.right_operand) : Except PyErr Value)
      let leftKey ← valueAsDictKey left
      let items ← (match value with
        | .vdict es => .ok es
        | .vlist xs => .ok (enumerateList xs)
        | _ => .error .typeError : Except PyErr (List (Key × Value)))
      findLoop leftKey m.operator right items

/-! ## Keypath.resolve (src/utils/keypath.py lines 63-96)

The `count_required_args` plumbing passes `(path[i], value, vars)` to the
three-argument `find_item_key`; the resolver callback is modelled as a
function of exactly those three arguments.  The default callback of the
source is the identity lambda. -/

/-- Default `resolve_key` callback `lambda k: k`. -/
def idResolveKey (k : Key) (value : Value) (vars : List (String × Value)) :
    Except PyErr Key := .ok k

/-- Segment loop of `resolve`: each raw segment is passed through the
resolver; when the resolved key is present in the current list or dict the
walk descends, otherwise strict mode raises KeyError and non-strict mode
appends the resolved key literally and continues with the same value. -/
def resolveGo (resolveKey : Key → Value → List (String × Value) → Except PyErr Key)
    (vars : List (String × Value)) (strict : Bool) :
    List Key → Value → Except PyErr (List Key)
  | [], _ => .ok []
  | seg :: rest, value => do
    let key ← resolveKey seg value vars
    if (match value with
        | .vlist _ => true
        | .vdict _ => true
        | _ => false) && has_key value key then
      match pyIndex value key with
      | .error e => .error e
      | .ok value2 => do
        let r ← resolveGo resolveKey vars strict rest value2
        .ok (key :: r)
    else
      if strict then .error .keyError
      else do
        let r ← resolveGo resolveKey vars strict rest value
        .ok (key :: r)

/-- Embedding of `resolve` from src/utils/keypath.py over an already split
path.  An empty path is returned unchanged. -/
def resolve (path : List Key) (obj : Value) (vars : List (String × Value))
    (strict : Bool)
    (resolveKey : Key → Value → List (String × Value) → Except PyErr Key) :
    Except PyErr (List Key) :=
  if path.isEmpty then .ok [] else resolveGo resolveKey vars strict path obj

/-! ## Python string coercion

Support for the f-string and `str(...)` coercions used by the utility
pipeline and `__evaluate`.  Scalar coercions match CPython exactly; for
containers `str` delegates to `repr`, rendered below with element reprs,
which is faithful for the scalar shapes stored by the engine.  Float
rendering is the decimal form of the abstracted rational. -/

/-- Single-quote character used by Python repr of strings. -/
def quoteStr : String := String.singleton (Char.ofNat 39)

/-- Comma-space separation used by list and dict reprs. -/
def commaSep : List String → String
  | [] => ""
  | [s] => s
  | s :: rest => s ++ ", " ++ commaSep rest

/-- Decimal rendering of an abstracted float. -/
def pyFloatStr (q : Rat) : String :=
  if q.den = 1 then toString q.num ++ ".0" else toString q

/-- Python repr of a dict key. -/
def pyKeyRepr : Key → String
  | .ks s => quoteStr ++ s ++ quoteStr
  | .ki n => toString n

mutual

def pyRepr : Value → String
  | .vnone => "None"
  | .vbool true => "True"
  | .vbool false => "False"
  | .vint n => toString n
  | .vfloat q => pyFloatStr q
  | .vstr s => quoteStr ++ s ++ quoteStr
  | .vlist xs => "[" ++ commaSep (pyReprList xs) ++ "]"
  | .vdict es => "\x7b" ++ commaSep (pyReprEntries es) ++ "\x7d"

def pyReprList : List Value → List String
  | [] => []
  | x :: xs => pyRepr x :: pyReprList xs

def pyReprEntries : List (Key × Value) → List String
  | [] => []
  | (k, v) :: es => (pyKeyRepr k ++ ": " ++ pyRepr v) :: pyReprEntries es

end

/-- Python `str(...)`: identity on strings, repr-style otherwise. -/
def pyStr : Value → String
  | .vstr s => s
  | .vnone => "None"
  | .vbool true => "True"
  | .vbool false => "False"
  | .vint n => toString n
  | .vfloat q => pyFloatStr q
  | v => pyRepr v

/-- Python truthiness. -/
def pyTruthy : Value → Bool
  | .vnone => false
  | .vbool b => b
  | .vint n => n ≠ 0
  | .vfloat q => q ≠ 0
  | .vstr s => s ≠ ""
  | .vlist xs => !xs.isEmpty
  | .vdict es => !es.isEmpty

/-- Digits to a natural number. -/
def digitsToNat (ds : List Char) : Nat :=
  ds.foldl (fun acc c => acc * 10 + (c.toNat - 48)) 0

/-- Unsigned decimal literal `digits`, `digits.digits`, `.digits` or
`digits.` as accepted by Python `float`. -/
def parseDecimal (cs : List Char) : Option Rat :=
  let ip := cs.takeWhile Char.isDigit
  let rest := cs.dropWhile Char.isDigit
  match rest with
  | [] => if ip.isEmpty then none else some ((digitsToNat ip : Int) : Rat)
  | '.' :: fr =>
    let fp := fr.takeWhile Char.isDigit
    let rest2 := fr.dropWhile Char.isDigit
    if !rest2.isEmpty then none
    else if ip.isEmpty && fp.isEmpty then none
    else some (((digitsToNat ip : Int) : Rat)
      + ((digitsToNat fp : Int) : Rat) / ((10 : Rat) ^ fp.length))
  | _ => none

/-- Python `float(str)` on the plain decimal forms the engine feeds it
(optionally signed, optionally surrounded by whitespace; exponent and
inf/nan forms are outside the engine's inputs). -/
def pyParseFloat (s : String) : Option Rat :=
  let cs := ((s.data.dropWhile isSpaceChar).reverse.dropWhile isSpaceChar).reverse
  match cs with
  | '-' :: rest => (parseDecimal rest).map (fun q => -q)
  | '+' :: rest => parseDecimal rest
  | _ => parseDecimal cs

/-- Embedding of `is_numeric` from src/utils/helpers.py: true exactly when
Python `float(val)` succeeds. -/
def is_numeric : Value → Bool
  | .vint _ => true
  | .vfloat _ => true
  | .vbool _ => true
  | .vstr s => (pyParseFloat s).isSome
  | _ => false

/-- Python `float(val)` on values for which `is_numeric` holds (0 on the
rest; callers guard with `is_numeric`). -/
def pyToFloat : Value → Rat
  | .vint n => (n : Rat)
  | .vfloat q => q
  | .vbool b => if b then 1 else 0
  | .vstr s => (pyParseFloat s).getD 0
  | _ => 0

/-! ## Utility pipeline (src/scrawler.py Scrawler.__apply_utils, lines 484-531)

The `slug` case calls the external python-slugify collaborator; it is taken
as a function parameter `slugFn`.  An unrecognized utility name matches no
case of the source `match` and passes the value through unchanged. -/

/-- Python `str.strip()`: drop leading and trailing whitespace. -/
def pyStrip (s : String) : String :=
  String.mk (((s.data.dropWhile isSpaceChar).reverse.dropWhile isSpaceChar).reverse)

/-- Python `str.lower()` on the ASCII text the engine handles. -/
def pyLower (s : String) : String :=
  String.mk (s.data.map Char.toLower)

/-- One utility application, following the source `match name.strip()`. -/
def applyUtil (slugFn : String → String) (value : Value) (util : String × List String) :
    Except PyErr Value :=
  let name := pyStrip util.1
  let args := util.2
  if name = "prepend" then
    .ok (if args.length > 0 then
      .vstr ((args.headD "") ++ pyStr (if pyTruthy value then value else .vstr ""))
    else value)
  else if name = "lowercase" then
    .ok (.vstr (pyLower (pyStr value)))
  else if name = "slug" then
    .ok (.vstr (slugFn (pyStr value)))
  else if name = "subtract" then
    let v1 : Rat := if is_numeric value then pyToFloat value else 0
    .ok (if args.length > 0 && is_numeric (.vstr (args.headD "")) then
      .vfloat (v1 - (pyParseFloat (args.headD "")).getD 0)
    else .vfloat v1)
  else if name = "clear_url_params" then
    match value with
    | .vstr s => .ok (.vstr ((pySplit s "?").headD ""))
    | _ => .error .attributeError
  else if name = "trim" then
    match value with
    | .vstr s => .ok (.vstr (pyStrip s))
    | _ => .error .attributeError
  else
    .ok value

/-- Embedding of `Scrawler.__apply_utils`: the utilities are applied
strictly in declared order, each one transforming the running value. -/
def apply_utils (slugFn : String → String) (utils : List (String × List String))
    (val : Value) : Except PyErr Value :=
  match utils with
  | [] => .ok val
  | u :: rest => do
    let v ← applyUtil slugFn val u
    apply_utils slugFn rest v

/-! ## Variable lookup (src/scrawler.py Scrawler.__var, lines 534-554)

`__var` begins with the call `parse_value(name, set_defaults=False)`.  The
`parse_value` defined in src/utils/notation.py has the single parameter
`string` and accepts no `set_defaults` keyword, so in the source as given
this call raises TypeError (unexpected keyword argument) before the body of
`parse_value` runs; the remainder of `__var` is embedded faithfully but is
unreachable behind that call. -/

/-- Descriptor produced by `parse_value` (shape only; the fields mirror the
groupdict keys of src/utils/notation.py). -/
structure ParseValueData where
  prop : Option String
  child_node : Option Int
  ctx : Option String
  selector : Option String
  maxCard : Option String
  parsed_utils : List (String × List String)
  varName : Option String

/-- The call `parse_value(name, set_defaults=False)` of `Scrawler.__var`
(src/scrawler.py line 546): the callee signature `def parse_value(string)`
in src/utils/notation.py has no such keyword parameter, so Python raises
TypeError at the call site. -/
def parse_value_with_set_defaults (name : String) : Except PyErr ParseValueData :=
  .error .typeError

/-- Instance of `is_none_keys(result, 'child_node', 'ctx', 'max',
'selector')` from src/utils/helpers.py for the descriptor shape: all four
keys must be absent or None. -/
def is_none_keys_var (r : ParseValueData) : Bool :=
  r.child_node.isNone && r.ctx.isNone && r.maxCard.isNone && r.selector.isNone

/-- Embedding of `Scrawler.__var`.  Note the source reads
`self.__state['vars'][name]` with the full expression `name`, not the
parsed `prop`, and applies the parsed utility pipeline to it; all of that
is dead code behind the TypeError of `parse_value_with_set_defaults`. -/
def var (slugFn : String → String) (vars : List (String × Value)) (name : String)
    (default : Value) : Except PyErr Value := do
  let result ← parse_value_with_set_defaults name
  if !is_none_keys_var result then
    .error .valueError
  else
    let inVars : Bool :=
      match result.prop with
      | some p => (varsLookup vars p).isSome
      | none => false
    if inVars then
      match varsLookup vars name with
      | some v => apply_utils slugFn result.parsed_utils v
      | none => .error .keyError
    else
      .ok default

/-! ## Embedded tokens (src/utils/notation.py parse_getters, line 42-43)

The source regex is
`(\$(var|attr)\{\s*([^|}]+(?:\s*\|\s*\w+(?:\s+[^\s{}]+)*)*\s*)\})`
collected with `re.findall` into a `set`, which deduplicates equal triples.
The scanner below mirrors the greedy structure of that pattern: after the
literal dollar-kind-brace opening and optional whitespace, the body is a
nonempty run of characters other than the pipe and the closing brace,
followed by zero or more pipe-separated utility clauses, then the closing
brace. -/

/-- One `$var`/`$attr` occurrence: the full matched text, the kind and the
inner group (the text between the brace-adjacent whitespace and the closing
brace). -/
structure GetterMatch where
  full : String
  kind : String
  inner : String
deriving DecidableEq, Repr

/-- Argument groups `(\s+[^\s\x7b\x7d]+)*` of a utility clause: pairs of
whitespace and a nonempty run of non-space non-brace characters, consumed
greedily; returns the consumed characters and the rest. -/
def matchArgGroups : Nat → List Char → List Char × List Char
  | 0, cs => ([], cs)
  | fuel + 1, cs =>
    let sp := cs.takeWhile isSpaceChar
    let r := cs.dropWhile isSpaceChar
    if sp.isEmpty then ([], cs)
    else
      let a := r.takeWhile (fun c => !isSpaceChar c && c ≠ '\x7b' && c ≠ '\x7d')
      if a.isEmpty then ([], cs)
      else
        let (more, rest) := matchArgGroups fuel (r.drop a.length)
        (sp ++ a ++ more, rest)

/-- Utility clauses `(\s*\|\s*\w+(\s+[^\s\x7b\x7d]+)*)*`: returns the
consumed characters and the rest, or none when a clause is malformed (a
pipe not followed by a word), failing the whole token match. -/
def matchUtilClauses : Nat → List Char → Option (List Char × List Char)
  | 0, cs => some ([], cs)
  | fuel + 1, cs =>
    let sp0 := cs.takeWhile isSpaceChar
    let r0 := cs.dropWhile isSpaceChar
    match r0 with
    | '|' :: r1 =>
      let sp1 := r1.takeWhile isSpaceChar
      let r2 := r1.dropWhile isSpaceChar
      let w := r2.takeWhile isWordChar
      if w.isEmpty then none
      else
        let r3 := r2.dropWhile isWordChar
        let (args, r4) := matchArgGroups (r3.length + 1) r3
        match matchUtilClauses fuel r4 with
        | none => none
        | some (more, rest) => some (sp0 ++ '|' :: sp1 ++ w ++ args ++ more, rest)
    | _ => some ([], cs)

/-- Try to match one `$var`/`$attr` token at the head of the character
list; on success returns the match and the remaining characters. -/
def matchGetterAt (cs : List Char) : Option (GetterMatch × List Char) :=
  let tryKind : String → List Char → Option (GetterMatch × List Char) := fun kind body =>
    match body with
    | '\x7b' :: r0 =>
      let lead := r0.takeWhile isSpaceChar
      let r1 := r0.dropWhile isSpaceChar
      let p1 := r1.takeWhile (fun c => c ≠ '|' && c ≠ '\x7d')
      if p1.isEmpty then none
      else
        let r2 := r1.drop p1.length
        match matchUtilClauses (r2.length + 1) r2 with
        | none => none
        | some (clauses, r3) =>
          let tailWs := r3.takeWhile isSpaceChar
          match r3.dropWhile isSpaceChar with
          | '\x7d' :: rest =>
            let inner := p1 ++ clauses ++ tailWs
            some (⟨"$" ++ kind ++ "\x7b" ++ String.mk lead ++ String.mk inner ++ "\x7d",
                   kind, String.mk inner⟩, rest)
          | _ => none
    | _ => none
  match cs with
  | '$' :: 'v' :: 'a' :: 'r' :: body => tryKind "var" body
  | '$' :: 'a' :: 't' :: 't' :: 'r' :: body => tryKind "attr" body
  | _ => none

/-- Non-overlapping left-to-right scan of `re.findall`. -/
def scanGetters : Nat → List Char → List GetterMatch
  | 0, _ => []
  | _ + 1, [] => []
  | fuel + 1, c :: cs =>
    match matchGetterAt (c :: cs) with
    | some (m, rest) => m :: scanGetters fuel rest
    | none => scanGetters fuel cs

/-- Deduplication worker threading the already seen triples. -/
def dedupGettersGo : List GetterMatch → List GetterMatch → List GetterMatch
  | [], _ => []
  | m :: rest, seen =>
    if seen.contains m then dedupGettersGo rest seen
    else m :: dedupGettersGo rest (m :: seen)

/-- Deduplication performed by the `set(...)` wrapper (keeping one copy of
each distinct triple; Python set order is unspecified, found order is
used here and no verified path depends on it). -/
def dedupGetters (ms : List GetterMatch) : List GetterMatch :=
  dedupGettersGo ms []

/-- Embedding of `parse_getters` from src/utils/notation.py. -/
def parse_getters (s : String) : List GetterMatch :=
  dedupGetters (scanGetters (s.length + 1) s.data)

/-- Replacement of every occurrence of a literal pattern, as performed by
`re.sub(re.escape(full_match), value, string)`. -/
def replaceAllGo (pat repl : List Char) : Nat → List Char → List Char
  | 0, cs => cs
  | _ + 1, [] => []
  | fuel + 1, c :: cs =>
    if !pat.isEmpty && (c :: cs).take pat.length = pat then
      repl ++ replaceAllGo pat repl fuel ((c :: cs).drop pat.length)
    else
      c :: replaceAllGo pat repl fuel cs

/-- Replace all occurrences of `pat` in `s` by `repl`. -/
def pyReplaceAll (s pat repl : String) : String :=
  String.mk (replaceAllGo pat.data repl.data (s.data.length + 1) s.data)

/-! ## String evaluation (src/scrawler.py Scrawler.__evaluate, lines 447-481)

Attribute extraction (`__attribute`) drives the browser capability and is
taken as the function parameter `attrFn`; `var` tokens go through the
embedded `var`, whose result is coerced with `str` before substitution.
If a replacement value is not a string (a list-valued attribute), `re.sub`
raises TypeError, as in Python. -/

/-- Substitution loop over the found tokens. -/
def evaluateGo (slugFn : String → String) (attrFn : String → Except PyErr Value)
    (vars : List (String × Value)) :
    List GetterMatch → String → Except PyErr String
  | [], s => .ok s
  | m :: rest, s => do
    let value ← (if m.kind = "attr" then
        attrFn m.inner
      else if m.kind = "var" then do
        let v ← var slugFn vars m.inner (.vstr m.full)
        .ok (.vstr (pyStr v))
      else
        .ok (.vstr m.full) : Except PyErr Value)
    match value with
    | .vstr vs => evaluateGo slugFn attrFn vars rest (pyReplaceAll s m.full vs)
    | _ => .error .typeError

/-- Embedding of `Scrawler.__evaluate`. -/
def evaluate (slugFn : String → String) (attrFn : String → Except PyErr Value)
    (vars : List (String × Value)) (string : String) : Except PyErr String :=
  evaluateGo slugFn attrFn vars (parse_getters string) string

/-! ## Interaction interpreter state (src/scrawler.py)

The browser capability (Playwright) is external: element interaction
(`__interact` and below) is taken as a function parameter `interact`, and
the `while`-probe (`__should_repeat`) as a parameter `probe`.  Every call
the record loop makes to `interact` is logged in `interactLog` before the
parameter function runs, so a run with an empty log provably never reached
node interaction.

Python object identity matters for claim C10: `vars` is reassigned to the
very metadata dict object of the visited link record, so metadata dicts
live in an explicit heap of string-keyed dicts addressed by naturals, and
the vars scope is an address into that heap. -/

/-- Node descriptor; only its presence matters to the verified record loop,
which (due to the `repeat` slip at scrawler.py line 150) never reads it. -/
structure NodeCfg where
  selector : String
deriving DecidableEq, Repr

/-- The `while` probe options of a repeat policy. -/
structure WhileCfg where
  selector : String
  existsFlag : Option Bool
  disabledFlag : Option Bool
deriving DecidableEq, Repr

/-- A page repeat policy dict: `times` and `while` keys, plus the `nodes`
key that `repeat.get('nodes', [])` would read; configuration dicts written
for this engine do not carry `nodes` inside `repeat`, so it is empty
there. -/
structure RepeatCfg where
  times : Option Nat
  whileCfg : Option WhileCfg
  nodes : List NodeCfg
deriving DecidableEq, Repr

/-- A page link source item: a literal URL, an explicit `{url, metadata}`
record whose metadata dict lives in the heap (shared with the
configuration), or a `$name` back-reference into the links registry. -/
inductive PageLinkItem where
  | lit (url : String)
  | record (url : String) (metadataAddr : Nat)
  | ref (name : String)
deriving DecidableEq, Repr

/-- A page descriptor: link source, optional repeat policy, node list. -/
structure PageCfg where
  link : List PageLinkItem
  repeatCfg : Option RepeatCfg
  nodes : List NodeCfg
deriving DecidableEq, Repr

/-- Browser settings (`browser_config.get('type', 'chromium')`). -/
structure BrowserCfg where
  btype : Option String
deriving DecidableEq, Repr

/-- Top-level configuration: optional browser settings and the optional
`scrawl` page list. -/
structure ScrawlConfig where
  browser : Option BrowserCfg
  scrawlPages : Option (List PageCfg)

/-- Interpreter state: the heap of string-keyed dicts (metadata and vars
objects), the allocator cursor, the address of the current vars scope, the
links registry (each record is a URL and the address of its metadata
dict), the browser and context resources, the open pages of the context,
and the instrumentation log of node lists passed to `interact`. -/
structure SState where
  heap : List (Nat × List (String × Value))
  nextAddr : Nat
  varsAddr : Nat
  links : List (String × List (String × Nat))
  browserOn : Bool
  contextOn : Bool
  pages : List String
  interactLog : List (List NodeCfg)

/-- State after `Scrawler.__init__`: empty data, a fresh empty vars dict at
address 0, empty links, no browser resources. -/
def initState : SState :=
  ⟨[(0, [])], 1, 0, [], false, false, [], []⟩

/-- Heap read (addresses are always allocated before use). -/
def heapLookup : List (Nat × List (String × Value)) → Nat → List (String × Value)
  | [], _ => []
  | (b, d) :: rest, a => if b = a then d else heapLookup rest a

/-- Heap write. -/
def heapSet : List (Nat × List (String × Value)) → Nat → List (String × Value) →
    List (Nat × List (String × Value))
  | [], a, d => [(a, d)]
  | (b, d0) :: rest, a, d =>
    if b = a then (b, d) :: rest else (b, d0) :: heapSet rest a d

/-- Python `d[k] = v` on a string-keyed dict. -/
def sdictSet : List (String × Value) → String → Value → List (String × Value)
  | [], k, v => [(k, v)]
  | (k0, v0) :: rest, k, v =>
    if k0 = k then (k0, v) :: rest else (k0, v0) :: sdictSet rest k v

/-- Registry read `self.__state['links'].get(name, [])`. -/
def linksGet : List (String × List (String × Nat)) → String → List (String × Nat)
  | [], _ => []
  | (n, rs) :: rest, name => if n = name then rs else linksGet rest name

/-- Embedding of `Scrawler.__resolve_page_link` (scrawler.py lines
728-751): a literal URL allocates a fresh empty metadata dict, an explicit
record is used as-is (metadata shared by reference with the config), and a
`$name` reference splices in the current registry records (metadata shared
by reference with the registry). -/
def resolve_page_link (st : SState) (items : List PageLinkItem) :
    SState × List (String × Nat) :=
  items.foldl
    (fun acc item =>
      match item with
      | .lit u =>
        let st0 := acc.1
        ({st0 with heap := heapSet st0.heap st0.nextAddr [],
                   nextAddr := st0.nextAddr + 1},
         acc.2 ++ [(u, st0.nextAddr)])
      | .record u a => (acc.1, acc.2 ++ [(u, a)])
      | .ref n => (acc.1, acc.2 ++ linksGet acc.1.links n))
    (st, [])

/-- Log-and-call wrapper around the `interact` capability parameter: the
record loop of `__scrawl` logs the node list it passes. -/
def runInteract (interact : SState → List NodeCfg → SState)
    (st : SState) (nodes : List NodeCfg) : SState :=
  interact {st with interactLog := st.interactLog ++ [nodes]} nodes

/-- The `times` repeat loop: `for i in range(n): self.__interact(...)`. -/
def iterInteract (interact : SState → List NodeCfg → SState) :
    Nat → SState → List NodeCfg → SState
  | 0, st, _ => st
  | n + 1, st, nodes => iterInteract interact n (runInteract interact st nodes) nodes

/-- The `while` repeat loop, bounded by fuel (the Python loop can diverge;
every theorem below quantifies over the fuel, and the loop is anyway
unreachable behind the line-150 error). -/
def whileInteract (interact : SState → List NodeCfg → SState)
    (probe : SState → WhileCfg → Bool) :
    Nat → WhileCfg → SState → List NodeCfg → SState
  | 0, _, st, _ => st
  | fuel + 1, w, st, nodes =>
    if probe st w then whileInteract interact probe fuel w (runInteract interact st nodes) nodes
    else st

/-- Processing of one resolved link record by `Scrawler.__scrawl`
(scrawler.py lines 145-167), faithful to the source line order:

1. `__new_page` opens a page on the context and navigates (line 146);
2. `vars` is reassigned to the very metadata dict of the record (line 147)
   and `_url` is written through it (line 148);
3. line 150 reads `repeat.get('nodes', [])` from the function-local
   variable `repeat`, which is assigned only later (line 153), so on the
   first processed record Python raises UnboundLocalError here;
4. were `repeat` bound, the repeat policy of the page would be dispatched
   (`times` loop, `while` loop, or a single interaction);
5. all pages but the first are closed (line 167).

The threaded `repeatVar` models the function-local `repeat`. -/
def scrawlRecord (interact : SState → List NodeCfg → SState)
    (probe : SState → WhileCfg → Bool) (whileFuel : Nat) (pg : PageCfg)
    (repeatVar : Option RepeatCfg) (st : SState) (record : String × Nat) :
    Except (PyErr × SState) (SState × Option RepeatCfg) :=
  if !st.contextOn then .error (.attributeError, st)
  else
    let st1 := {st with pages := st.pages ++ [record.1]}
    let st2 := {st1 with varsAddr := record.2}
    let st3 := {st2 with
      heap := heapSet st2.heap record.2
        (sdictSet (heapLookup st2.heap record.2) "_url" (.vstr record.1))}
    match repeatVar with
    | none => .error (.unboundLocalError, st3)
    | some r =>
      let nodes := r.nodes
      match pg.repeatCfg with
      | some rp =>
        let st4 :=
          match rp.times with
          | some n => iterInteract interact n st3 nodes
          | none =>
            match rp.whileCfg with
            | some w => whileInteract interact probe whileFuel w st3 nodes
            | none => st3
        .ok ({st4 with pages := st4.pages.take 1}, some rp)
      | none =>
        let st4 := runInteract interact st3 nodes
        .ok ({st4 with pages := st4.pages.take 1}, repeatVar)

/-- Record loop of one page, threading the function-local `repeat`. -/
def scrawlRecords (interact : SState → List NodeCfg → SState)
    (probe : SState → WhileCfg → Bool) (whileFuel : Nat) (pg : PageCfg) :
    List (String × Nat) → Option RepeatCfg → SState →
    Except (PyErr × SState) (SState × Option RepeatCfg)
  | [], rv, st => .ok (st, rv)
  | record :: rest, rv, st =>
    match scrawlRecord interact probe whileFuel pg rv st record with
    | .error e => .error e
    | .ok (st2, rv2) => scrawlRecords interact probe whileFuel pg rest rv2 st2

/-- Page loop of `Scrawler.__scrawl` (the local `repeat` persists across
iterations of the Python for-loop, so it is threaded across pages too). -/
def scrawlPages (interact : SState → List NodeCfg → SState)
    (probe : SState → WhileCfg → Bool) (whileFuel : Nat) :
    List PageCfg → Option RepeatCfg → SState → Except (PyErr × SState) SState
  | [], _, st => .ok st
  | pg :: rest, rv, st =>
    let pr := resolve_page_link st pg.link
    match scrawlRecords interact probe whileFuel pg pr.2 rv pr.1 with
    | .error e => .error e
    | .ok (st2, rv2) => scrawlPages interact probe whileFuel rest rv2 st2

/-- Embedding of `Scrawler.__launch_browser` (scrawler.py lines 612-645):
an unsupported engine name raises ValueError before any resource is
acquired; otherwise the browser and its context come up. -/
def launch_browser (cfg : ScrawlConfig) (st : SState) : Except (PyErr × SState) SState :=
  let btype := (cfg.browser.bind (fun b => b.btype)).getD "chromium"
  if btype = "chromium" || btype = "firefox" || btype = "webkit" then
    .ok {st with browserOn := true, contextOn := true}
  else
    .error (.valueError, st)

/-- Embedding of `Scrawler.__scrawl` (scrawler.py lines 128-167): launch
the browser, return early when the config has no `scrawl` key, else run the
page loop with the local `repeat` initially unbound. -/
def scrawl (interact : SState → List NodeCfg → SState)
    (probe : SState → WhileCfg → Bool) (whileFuel : Nat)
    (cfg : ScrawlConfig) (st : SState) : Except (PyErr × SState) SState :=
  match launch_browser cfg st with
  | .error e => .error e
  | .ok st1 =>
    match cfg.scrawlPages with
    | none => .ok st1
    | some pgs => scrawlPages interact probe whileFuel pgs none st1

/-- Embedding of `Scrawler.__close_browser` (scrawler.py lines 648-666):
`self.__browser_context.pages[0].close()` raises AttributeError when the
context was never created (it is still None) and IndexError when the
context has no open page; otherwise the page, the context and the browser
are closed. -/
def close_browser (st : SState) : Except (PyErr × SState) SState :=
  if !st.contextOn then .error (.attributeError, st)
  else
    match st.pages with
    | [] => .error (.indexError, st)
    | _ :: _ => .ok {st with pages := [], contextOn := false, browserOn := false}

/-- Embedding of `Scrawler.go` (scrawler.py lines 52-68): try the scrawl
and close; on any exception close the browser and re-raise the original
exception.  When `__close_browser` itself raises, its exception replaces
the original one, exactly as in the Python control flow. -/
def go (interact : SState → List NodeCfg → SState)
    (probe : SState → WhileCfg → Bool) (whileFuel : Nat)
    (cfg : ScrawlConfig) (st : SState) : Except (PyErr × SState) SState :=
  match scrawl interact probe whileFuel cfg st with
  | .ok st1 => close_browser st1
  | .error (e, st1) =>
    match close_browser st1 with
    | .ok st2 => .error (e, st2)
    | .error (e2, st2) => .error (e2, st2)

/-- Error component of a run outcome. -/
def runError {α : Type} : Except (PyErr × SState) α → Option PyErr
  | .error (e, _) => some e
  | .ok _ => none

/-- Final state of a run outcome. -/
def runState : Except (PyErr × SState) SState → SState
  | .error (_, st) => st
  | .ok st => st

/-! ## Specification predicates and concrete scenarios used by the theorems -/

/-- The key `k` names the first element of `items` whose subkey satisfies
the predicate: some position holds `k` with a passing test, and the test
computes to a passing false at every earlier position. -/
def FirstMatch (leftKey : Key) (op : CmpOp) (right : Value)
    (items : List (Key × Value)) (k : Key) : Prop :=
  ∃ i, ∃ p : Key × Value, items.get? i = some p ∧ p.1 = k ∧
    predTest leftKey op right p.2 = .ok true ∧
    ∀ j q, j < i → items.get? j = some q →
      predTest leftKey op right q.2 = .ok false

/-- A one-page configuration without a repeat policy and with one node. -/
def cfgPageNoRepeat : ScrawlConfig :=
  ⟨none, some [⟨[.lit "http://example.test/a"], none, [⟨"div.item"⟩]⟩]⟩

/-- A one-page configuration whose repeat policy is `times: 3`. -/
def cfgPageTimes3 : ScrawlConfig :=
  ⟨none, some [⟨[.lit "http://example.test/a"], some ⟨some 3, none, []⟩, [⟨"div.item"⟩]⟩]⟩

/-- A configuration whose browser type is not a Playwright engine. -/
def cfgBadBrowser : ScrawlConfig :=
  ⟨some ⟨some "opera"⟩, some []⟩

/-- Pre-run state for the aliasing scenario: the vars dict at address 0 and
one configuration metadata dict `{'k': 'v'}` at address 1. -/
def stMetadataRecord : SState :=
  ⟨[(0, []), (1, [("k", vstr "v")])], 2, 0, [], false, false, [], []⟩

/-- A one-page configuration whose link is an explicit `{url, metadata}`
record sharing the metadata dict at address 1. -/
def cfgMetadataRecord : ScrawlConfig :=
  ⟨none, some [⟨[.record "http://example.test/a" 1], none, []⟩]⟩

/-- The resolved-links tree of the predicate-resolution scenario:
`[{id: 1}, {id: 2}]`. -/
def treeIds : Value :=
  vlist [vdict [(ks "id", vint 1)], vdict [(ks "id", vint 2)]]

/-- The vars scope `{x: 2}` of the predicate-resolution scenario. -/
def varsX2 : List (String × Value) := [("x", vint 2)]

/-! ## Theorems settling the claims -/

/-- C4: the claim says `split` normalizes bracket notation so that
`split("a[0][1]")` yields `["a", "0", "1"]` and collapses repeated
delimiters.  The code keeps only the dot-run collapse (first conjunct shows
the collapse does work, third that bracket input passes through unsplit),
because the first two `re.sub` results are dead stores; chaining the three
substitutions as the dead stores intend yields the claimed segments (last
conjunct). -/
theorem c4_split_bracket_divergence :
    split "a..b...c" "." = ["a", "b", "c"] ∧
    split "a.0.1" "." = ["a", "0", "1"] ∧
    split "a[0][1]" "." = ["a[0][1]"] ∧
    splitChained "a[0][1]" "." = ["a", "0", "1"] :=
  ⟨rfl, rfl, rfl, rfl⟩

/-- C2 (counterexample): on the empty tree, `assign` with the length-two
path `a.b` and `merge=false` raises KeyError instead of creating the
intermediate container and succeeding as the claim states. -/
theorem c2_nested_assign_fails_counterexample :
    assign (vint 0) (vdict []) [ks "a", ks "b"] false = .error .keyError :=
  rfl

/-- C2 (amended): `assign` then `get` round-trips on an initially empty
tree exactly for paths of length one (for every key and value); for every
path of length at least two the walk indexes a missing key of the empty
tree and raises KeyError, because `assign` creates no intermediate
containers. -/
theorem c2_assign_get_amended :
    ∀ (k : Key) (v d : Value),
      assign v (vdict []) [k] false = .ok (vdict [(k, v)]) ∧
      get [k] (vdict [(k, v)]) d = v ∧
      ∀ (k2 : Key) (restPath : List Key),
        assign v (vdict []) (k :: k2 :: restPath) false = .error .keyError := by
  intro k v d
  refine ⟨rfl, ?_, fun k2 restPath => rfl⟩
  show getGo [k] (vdict [(k, v)]) d = v
  simp [getGo, isDictListStr, has_key, dictLookup, pyIndex]

/-- C3: evaluation of `assign` with `merge=true` at the failing inputs.
First conjunct: an existing mapping and an incoming mapping of the same
type are not unioned, the incoming value is silently dropped (the guard
compares `type(value)` against the builtin `dir`, never `dict`).  Second
conjunct: with an existing int and an incoming str (mismatched types) the
incoming value does not replace the existing one, the `+=` branch raises
TypeError (the type-match guard `type(_obj[key] == type(value))` is
vacuously truthy). -/
theorem c3_merge_slips_divergence :
    assign (vdict [(ks "c", vint 2)])
        (vdict [(ks "a", vdict [(ks "b", vint 1)])]) [ks "a"] true
      = .ok (vdict [(ks "a", vdict [(ks "b", vint 1)])]) ∧
    assign (vstr "x") (vdict [(ks "a", vint 5)]) [ks "a"] true
      = .error .typeError :=
  ⟨rfl, rfl⟩

/-- C5 (counterexample): with the spec's star syntax, the predicate segment
never matches the source regex (which requires the text dollar-key-brace),
so `resolve` falls back to the literal text instead of returning path
segment 1 as the claim states. -/
theorem c5_star_predicate_counterexample :
    resolve [ks "*\x7bid=$x\x7d"] treeIds varsX2 false find_item_key
        = .ok [ks "*\x7bid=$x\x7d"] ∧
    resolve [ks "*\x7bid=$x\x7d"] treeIds varsX2 false find_item_key
        ≠ .ok [ki 1] := by
  refine ⟨rfl, ?_⟩
  intro h
  injection h with h1
  injection h1 with h2 h3
  cases h2

/-- C5 (amended): with the source syntax for predicate segments,
`resolve` on the tree `[{id: 1}, {id: 2}]` and vars `{x: 2}` returns path
segment 1; and in general whenever the scan loop of `find_item_key`
returns a key, that key names the first element of the collection whose
subkey satisfies the operator against the resolved operand. -/
theorem c5_key_predicate_amended :
    resolve [ks "$key\x7bid=$x\x7d"] treeIds varsX2 false find_item_key
        = .ok [ki 1] ∧
    ∀ (leftKey : Key) (op : CmpOp) (right : Value)
      (items : List (Key × Value)) (k : Key),
      findLoop leftKey op right items = .ok k →
      FirstMatch leftKey op right items k := by
  refine ⟨rfl, ?_⟩
  intro leftKey op right items k h
  induction items with
  | nil => exact absurd h (by simp [findLoop])
  | cons p rest ih =>
    obtain ⟨k0, v0⟩ := p
    rw [findLoop] at h
    cases hpt : predTest leftKey op right v0 with
    | error e => rw [hpt] at h; exact absurd h (by simp)
    | ok b =>
      rw [hpt] at h
      cases b with
      | true =>
        simp only [if_true] at h
        injection h with hk
        exact ⟨0, (k0, v0), by simp, hk, hpt, fun j q hj => absurd hj (Nat.not_lt_zero j)⟩
      | false =>
        simp only [if_false] at h
        obtain ⟨i, q, hq, hqk, hqt, hprev⟩ := ih h
        refine ⟨i + 1, q, by simpa using hq, hqk, hqt, ?_⟩
        intro j r hj hr
        cases j with
        | zero =>
          simp at hr
          rw [← hr]
          exact hpt
        | succ j2 =>
          exact hprev j2 r (by omega) (by simpa using hr)

/-- C5 (witness): the general clause of the amended theorem at the concrete
scenario: index 1 is the first element of the enumerated tree whose `id`
equals the resolved variable 2. -/
theorem c5_key_predicate_amended_witness :
    FirstMatch (ks "id") CmpOp.eq (vint 2)
      [(ki 0, vdict [(ks "id", vint 1)]), (ki 1, vdict [(ks "id", vint 2)])]
      (ki 1) :=
  c5_key_predicate_amended.2 (ks "id") CmpOp.eq (vint 2)
    [(ki 0, vdict [(ks "id", vint 1)]), (ki 1, vdict [(ks "id", vint 2)])]
    (ki 1) rfl

/-- C6 (counterexample): a predicate segment that parses but matches no
element raises ValueError from the scan loop of `find_item_key` even with
`strict=false`; it does not fall back to the literal predicate text as the
claim states. -/
theorem c6_nonstrict_unmatched_predicate_counterexample :
    resolve [ks "$key\x7bid=$x\x7d"] (vlist [vdict [(ks "id", vint 1)]])
        varsX2 false find_item_key = .error .valueError :=
  rfl

/-- C6 (amended): a parsed predicate segment that matches no element raises
ValueError in non-strict and strict resolution alike (first two
conjuncts); the strict/non-strict distinction instead governs a resolved
segment key that is absent from the current collection, for example a
segment that does not parse as a predicate: non-strict appends the literal
text and continues (so a later assign can create the entry), strict raises
KeyError (last two conjuncts). -/
theorem c6_unmatched_predicate_amended :
    resolve [ks "$key\x7bid=$x\x7d"] (vlist [vdict [(ks "id", vint 1)]])
        varsX2 false find_item_key = .error .valueError ∧
    resolve [ks "$key\x7bid=$x\x7d"] (vlist [vdict [(ks "id", vint 1)]])
        varsX2 true find_item_key = .error .valueError ∧
    resolve [ks "newentry"] (vdict []) varsX2 false find_item_key
        = .ok [ks "newentry"] ∧
    resolve [ks "newentry"] (vdict []) varsX2 true find_item_key
        = .error .keyError :=
  ⟨rfl, rfl, rfl, rfl⟩

/-- C7: for every vars scope, attribute resolver and slug collaborator,
evaluating a string with the well-formed embedded token dollar-var-name
raises TypeError, because `__var` calls `parse_value` with the
`set_defaults` keyword that the `parse_value` of src/utils/notation.py
does not accept; the claim says the token resolves without raising. -/
theorem c7_var_token_raises_type_error :
    ∀ (slugFn : String → String) (attrFn : String → Except PyErr Value)
      (vars : List (String × Value)),
      evaluate slugFn attrFn vars "x $var\x7bname\x7d y" = .error .typeError :=
  fun _ _ _ => rfl

/-- C9: the utility pipeline applies its operations strictly in declared
order, and order matters: prepend-then-lowercase on the value Y gives xy
while lowercase-then-prepend gives Xy (for every slug collaborator), and
the two results differ; the last conjunct is the general sequencing
equation showing one operation is applied before the rest of the
pipeline. -/
theorem c9_utility_pipeline_order :
    ∀ (slugFn : String → String),
      apply_utils slugFn [("prepend", ["X"]), ("lowercase", [])] (vstr "Y")
          = .ok (vstr "xy") ∧
      apply_utils slugFn [("lowercase", []), ("prepend", ["X"])] (vstr "Y")
          = .ok (vstr "Xy") ∧
      (Except.ok (vstr "xy") : Except PyErr Value) ≠ .ok (vstr "Xy") ∧
      ∀ (u : String × List String) (us : List (String × List String)) (v : Value),
        apply_utils slugFn (u :: us) v
          = (applyUtil slugFn v u).bind (apply_utils slugFn us) := by
  intro slugFn
  refine ⟨rfl, rfl, ?_, fun u us v => rfl⟩
  intro h
  injection h with h1
  injection h1 with h2
  exact absurd h2 (by decide)

/-- C1: for every interact capability, probe and while-fuel, running the
interpreter on a one-page config with one node and no repeat policy, and
likewise on the same page with the repeat policy `times: 3`, navigates and
then stops with UnboundLocalError at the read `repeat.get('nodes', [])` of
scrawler.py line 150 (the local `repeat` is first assigned only at line
153), and the node list is never interacted with, neither once nor three
times as the claim states. -/
theorem c1_record_loop_unbound_local :
    ∀ (interact : SState → List NodeCfg → SState)
      (probe : SState → WhileCfg → Bool) (whileFuel : Nat),
      runError (scrawl interact probe whileFuel cfgPageNoRepeat initState)
          = some .unboundLocalError ∧
      (runState (scrawl interact probe whileFuel cfgPageNoRepeat initState)).interactLog
          = [] ∧
      runError (scrawl interact probe whileFuel cfgPageTimes3 initState)
          = some .unboundLocalError ∧
      (runState (scrawl interact probe whileFuel cfgPageTimes3 initState)).interactLog
          = [] :=
  fun _ _ _ => ⟨rfl, rfl, rfl, rfl⟩

/-- C8: with an unsupported browser type, `__scrawl` raises ValueError
during setup (first conjunct), but `go` reports AttributeError instead:
the `except` block calls `__close_browser`, which dereferences the never
created browser context and raises, replacing the original error on its
way to the caller, against the claim that the original error is reported
after release on every exit path. -/
theorem c8_close_browser_masks_setup_error :
    ∀ (interact : SState → List NodeCfg → SState)
      (probe : SState → WhileCfg → Bool) (whileFuel : Nat),
      runError (scrawl interact probe whileFuel cfgBadBrowser initState)
          = some .valueError ∧
      runError (go interact probe whileFuel cfgBadBrowser initState)
          = some .attributeError :=
  fun _ _ _ => ⟨rfl, rfl⟩

/-- C10: visiting a page whose link record carries the metadata dict at
heap address 1 reassigns the vars scope to that very address (third
conjunct) and writes `_url` through it, so the shared metadata dict is
mutated in place (second conjunct) — but the run stops with
UnboundLocalError before any node interaction (first conjunct), so the
ephemeral keys `_node` and `_nth` that the claim also names are never
written (last two conjuncts). -/
theorem c10_metadata_alias_mutation :
    ∀ (interact : SState → List NodeCfg → SState)
      (probe : SState → WhileCfg → Bool) (whileFuel : Nat),
      runError (scrawl interact probe whileFuel cfgMetadataRecord stMetadataRecord)
          = some .unboundLocalError ∧
      heapLookup (runState (scrawl interact probe whileFuel cfgMetadataRecord
            stMetadataRecord)).heap 1
          = [("k", vstr "v"), ("_url", vstr "http://example.test/a")] ∧
      (runState (scrawl interact probe whileFuel cfgMetadataRecord
            stMetadataRecord)).varsAddr = 1 ∧
      varsLookup (heapLookup (runState (scrawl interact probe whileFuel
            cfgMetadataRecord stMetadataRecord)).heap 1) "_node" = none ∧
      varsLookup (heapLookup (runState (scrawl interact probe whileFuel
            cfgMetadataRecord stMetadataRecord)).heap 1) "_nth" = none :=
  fun _ _ _ => ⟨rfl, rfl, rfl, rfl, rfl⟩
